import Mathlib

/-
Verification of the UnicBOT chatbot (source: src/pproj3.py).

The Python source is shallowly embedded: Python strings are modeled as
`List Char`, the network and the file system are modeled as explicit
oracles passed to the embedded functions, and Python exceptions that can
escape a function are modeled with `Except`.  Functions keep the names of
the Python functions they embed.
-/

namespace UnicBot

/-! ## Faults

A Python exception that is not caught inside the embedded code. -/

/-- Kinds of Python exceptions that can propagate out of the embedded
functions.  `osError` carries the rendered message of an `OSError` other
than `FileNotFoundError` (for example `PermissionError`). -/
inductive PyFault where
  | indexError
  | keyError
  | typeError
  | attributeError
  | osError (desc : List Char)
  deriving DecidableEq

/-! ## Input normalization (src/pproj3.py lines 42-43) -/

/-- Embeds Python's `string.punctuation`, the 32 standard ASCII punctuation
characters (codes 33-47, 58-64, 91-96 and 123-126). -/
def punctuation : List Char :=
  ['!', '\x22', '#', '$', '%', '&', '\x27', '(', ')', '*', '+', ',', '-', '.', '/',
   ':', ';', '<', '=', '>', '?', '@', '[', '\x5c', ']', '^', '_', '\x60',
   '\x7b', '|', '\x7d', '~']

/-- Code points treated as whitespace by Python's `str.strip` / `str.isspace`,
restricted to the Latin-1 range (the remaining Unicode space category is out
of the modeled character range). -/
def spaceCodes : List Nat := [9, 10, 11, 12, 13, 28, 29, 30, 31, 32, 133, 160]

/-- Embeds Python's `str.isspace` membership test used by `str.strip`. -/
def pyIsSpace (c : Char) : Bool := decide (c.toNat ∈ spaceCodes)

/-- Embeds Python's `str.strip()` with no argument: drop leading and trailing
whitespace characters. -/
def pyStrip (s : List Char) : List Char :=
  ((s.dropWhile pyIsSpace).reverse.dropWhile pyIsSpace).reverse

/-- Embeds `clean_input` (line 42): delete every `string.punctuation`
character via `str.translate`, then lowercase the remainder with
`str.lower` (ASCII case folding; other whitespace and letters pass through
unchanged, nothing is collapsed). -/
def clean_input (user_input : List Char) : List Char :=
  (user_input.filter fun c => !(punctuation.contains c)).map Char.toLower

/-! ## Keyword matching (lines 46-68) -/

/-- Embeds Python's substring operator `needle in hay` on strings: scan the
suffixes of `hay` for one that starts with `needle`. -/
def containsSub (hay needle : List Char) : Bool :=
  hay.tails.any fun t => needle.isPrefixOf t

/-- Embeds `is_keyword_match` (line 46): some keyword of the set occurs as a
contiguous substring of the cleaned input.  The Python `set` of keywords is
modeled by the list of its members; the function only depends on
membership. -/
def is_keyword_match (user_input : List Char) (keywords : List (List Char)) : Bool :=
  keywords.any fun keyword => containsSub (clean_input user_input) keyword

/-- Embeds `is_greeting_query` (line 51). -/
def is_greeting_query (user_input : List Char) (greeting_keywords : List (List Char)) : Bool :=
  is_keyword_match user_input greeting_keywords

/-- Embeds `is_exit_query` (line 55). -/
def is_exit_query (user_input : List Char) (exit_keywords : List (List Char)) : Bool :=
  is_keyword_match user_input exit_keywords

/-- Embeds `is_stem_query` (line 59). -/
def is_stem_query (user_input : List Char) (stem_keywords : List (List Char)) : Bool :=
  is_keyword_match user_input stem_keywords

/-- Embeds `is_appointment_query` (line 63). -/
def is_appointment_query (user_input : List Char) (appointment_keywords : List (List Char)) : Bool :=
  is_keyword_match user_input appointment_keywords

/-- Embeds `is_reschedule_query` (line 67). -/
def is_reschedule_query (user_input : List Char) (reschedule_keywords : List (List Char)) : Bool :=
  is_keyword_match user_input reschedule_keywords

/-! ## Model Client (lines 11-28)

`call_llama_api` posts one user message to the chat-completions endpoint.
The network is modeled by a `world` oracle mapping the prompt to the
outcome of the `requests.post` call.  A JSON value models the parsed
response body; `none` as a body models a body `response.json()` cannot
parse (the resulting `requests.exceptions.JSONDecodeError` is a
`RequestException`, hence caught). -/

/-- JSON values, modeling the result of `response.json()`. -/
inductive Json where
  | null
  | bool (b : Bool)
  | num (n : Int)
  | str (s : List Char)
  | arr (elems : List Json)
  | obj (fields : List (List Char × Json))

/-- Embeds Python's `d.get(key, default)`: on a JSON object, look the key up
and fall back to the default; any other receiver has no `.get` attribute and
raises `AttributeError`. -/
def Json.dictGet (j : Json) (key : List Char) (dflt : Json) : Except PyFault Json :=
  match j with
  | .obj fields => .ok ((fields.lookup key).getD dflt)
  | _ => .error .attributeError

/-- Embeds Python's subscript `x[0]`: first element of a list (raising
`IndexError` when empty), first character of a string (`IndexError` when
empty), `KeyError` on a dict without key `0`, `TypeError` otherwise. -/
def Json.index0 : Json → Except PyFault Json
  | .arr [] => .error .indexError
  | .arr (x :: _) => .ok x
  | .str [] => .error .indexError
  | .str (c :: _) => .ok (.str [c])
  | .obj _ => .error .keyError
  | .null => .error .typeError
  | .bool _ => .error .typeError
  | .num _ => .error .typeError

/-- Key `"choices"` of the response body. -/
def choicesField : List Char := "choices".data

/-- Key `"message"` of a choice. -/
def messageField : List Char := "message".data

/-- Key `"content"` of a message. -/
def contentField : List Char := "content".data

/-- Placeholder returned when the content field is absent (line 26). -/
def noResponseReply : List Char := "No response from model.".data

/-- Text prepended to a rendered `RequestException` (line 28). -/
def apiErrorTag : List Char := "API error: ".data

/-- Stands for the rendered message of the `JSONDecodeError` raised when the
response body is not JSON; the exact message text is abstracted. -/
def jsonDecodeDetail : List Char := "Expecting value".data

/-- Embeds line 26: `response.json().get('choices', [{}])[0].get('message',
{}).get('content', "No response from model.")`, with each step's exception
propagated explicitly. -/
def extract_reply (body : Json) : Except PyFault Json :=
  match body.dictGet choicesField (Json.arr [Json.obj []]) with
  | .error f => .error f
  | .ok choices =>
    match choices.index0 with
    | .error f => .error f
    | .ok first =>
      match first.dictGet messageField (Json.obj []) with
      | .error f => .error f
      | .ok message => message.dictGet contentField (Json.str noResponseReply)

/-- Outcome of the `requests.post` call.  `connFailure` models a
network-level `RequestException` carrying its rendered message; `response`
carries the final HTTP status, the rendered message of the `HTTPError` that
`raise_for_status` would raise (`reason`), and the parsed body (`none` when
the body is not valid JSON). -/
inductive HttpResult where
  | connFailure (desc : List Char)
  | response (status : Nat) (reason : List Char) (body : Option Json)

/-- Embeds `call_llama_api` (lines 12-28).  The `try` block posts the
request, calls `response.raise_for_status()` (which raises `HTTPError`
exactly for statuses 400-599), and extracts the reply from the parsed body;
`except requests.exceptions.RequestException` turns network-level failures,
`HTTPError` and `JSONDecodeError` into the text `"API error: " + str(e)`.
Exceptions raised by the body extraction are not `RequestException`s and
escape as faults. -/
def call_llama_api (world : List Char → HttpResult) (prompt : List Char) :
    Except PyFault Json :=
  match world prompt with
  | .connFailure desc => .ok (.str (apiErrorTag ++ desc))
  | .response status reason body =>
    if 400 ≤ status ∧ status ≤ 599 then .ok (.str (apiErrorTag ++ reason))
    else
      match body with
      | none => .ok (.str (apiErrorTag ++ jsonDecodeDetail))
      | some j => extract_reply j

/-! ## Keyword loading (lines 31-39) -/

/-- Outcome of `open(filename, 'r')` plus reading: the file is missing
(`FileNotFoundError`), fails with some other `OSError` (for example
`PermissionError`), or yields a list of lines. -/
inductive FileAccess where
  | notFound
  | readFault (fault : PyFault)
  | content (lines : List (List Char))

/-- Message passed to `st.error` when the keyword file is missing (line 38). -/
def keywordFileError (filename : List Char) : List Char :=
  "Keyword file not found: ".data ++ filename

/-- Embeds line 36 for one line of the file: split on commas, strip each
token, drop empty tokens, lowercase the kept tokens. -/
def parseLine (line : List Char) : List (List Char) :=
  (line.splitOn ',').filterMap fun keyword =>
    if pyStrip keyword = [] then none
    else some ((pyStrip keyword).map Char.toLower)

/-- Embeds `load_keywords` (lines 31-39).  The file system is modeled by the
`fs` oracle.  Returns the list of `st.error` messages surfaced to the UI
together with the accumulated keyword set (modeled by the list of its
members); only `FileNotFoundError` is caught, so any other read fault
escapes. -/
def load_keywords (filename : List Char) (fs : FileAccess) :
    Except PyFault (List (List Char) × List (List Char)) :=
  match fs with
  | .notFound => .ok ([keywordFileError filename], [])
  | .readFault f => .error f
  | .content lines =>
    .ok ([], lines.foldl (fun acc line => acc ++ parseLine line) [])

/-! ## Document extraction and summarization (lines 71-94) -/

/-- Embeds `extract_pdf_text` (lines 71-76).  A parsed PDF is modeled by the
list of its pages' `extract_text()` results in page order; the loop
appends them to an initially empty accumulator. -/
def extract_pdf_text (pages : List (List Char)) : List Char :=
  pages.foldl (fun text page => text ++ page) []

/-- Template text prepended to the extracted content (line 81). -/
def summaryPromptIntro : List Char :=
  "Please provide a summary for the following content:\n\n".data

/-- Embeds `generate_summary_with_model` (lines 79-82).  The Model Client is
abstracted to the oracle `llama`; the second component counts Model Client
invocations (this function performs exactly one). -/
def generate_summary_with_model (llama : List Char → List Char) (content : List Char) :
    List Char × Nat :=
  (llama (summaryPromptIntro ++ content), 1)

/-- Declared PDF media type (line 86). -/
def mediaTypePdf : List Char := "application/pdf".data

/-- Declared plain-text media type (line 88). -/
def mediaTypeTxt : List Char := "text/plain".data

/-- Reply for any other declared media type (line 91). -/
def unsupportedReply : List Char :=
  "Unsupported file type. Please upload a PDF or text file.".data

/-- An uploaded file: its declared media type, the page texts its bytes
parse to when read as a PDF, and the UTF-8 decoding of its bytes when read
as plain text.  (Only the field selected by the media type is ever used.) -/
structure UploadedFile where
  ftype : List Char
  pdfPages : List (List Char)
  rawText : List Char

/-- Embeds `handle_file_upload` (lines 85-94) with the Model Client
abstracted to `llama`; the second component counts Model Client
invocations. -/
def handle_file_upload (llama : List Char → List Char) (uploaded_file : UploadedFile) :
    List Char × Nat :=
  if uploaded_file.ftype = mediaTypePdf then
    generate_summary_with_model llama (extract_pdf_text uploaded_file.pdfPages)
  else if uploaded_file.ftype = mediaTypeTxt then
    generate_summary_with_model llama uploaded_file.rawText
  else (unsupportedReply, 0)

/-! ## Chatbot routing (lines 97-121) -/

/-- Canned greeting reply (line 101). -/
def greetingReply : List Char := "Hello! How can I assist you today?".data

/-- Canned reschedule reply (lines 104-109). -/
def rescheduleReply : List Char :=
  ("To make changes to your appointment, please reach out directly by emailing or calling our team:\n\n" ++
   "Email: info@unicgate.org\n\n" ++
   "Phone: +1 346-471-4390\n\n" ++
   "Please note that response times may vary as our team processes requests. We appreciate your patience and will do our best to accommodate your scheduling needs.").data

/-- Canned appointment reply (line 112). -/
def appointmentReply : List Char :=
  "You can check my available slots and schedule an appointment using this link: [Schedule Appointment](https://cal.com/tankyash1)".data

/-- Canned farewell reply (line 118). -/
def farewellReply : List Char := "Goodbye! See you next time.".data

/-- Fixed fallback reply for unrecognized input (line 121). -/
def fallbackReply : List Char :=
  "Sorry, I can only answer STEM-related questions or assist with appointment scheduling. Please ask something related to science, technology, engineering, or mathematics, or provide scheduling-related details.".data

/-- Embeds `stem_chatbot` (lines 97-121): the prioritized if-chain over the
five keyword categories.  The Model Client call on the stem branch is
abstracted to the oracle `llama`, applied to the original (uncleaned)
input. -/
def stem_chatbot (llama : List Char → List Char) (user_input : List Char)
    (stem_keywords greeting_keywords exit_keywords appointment_keywords reschedule_keywords :
      List (List Char)) : List Char :=
  if is_greeting_query user_input greeting_keywords then greetingReply
  else if is_reschedule_query user_input reschedule_keywords then rescheduleReply
  else if is_appointment_query user_input appointment_keywords then appointmentReply
  else if is_stem_query user_input stem_keywords then llama user_input
  else if is_exit_query user_input exit_keywords then farewellReply
  else fallbackReply

/-! ## Spec-side classifier and router

The spec (sections 4.3 and 4.4) describes the if-chain of `stem_chatbot` as
a classifier producing an `Intent` followed by a router.  The following
definitions are modeled from those spec sections (not from the source) so
the source's `stem_chatbot` can be proved a refinement of them. -/

/-- Intent categories of spec section 3. -/
inductive Intent where
  | Greeting
  | Reschedule
  | Appointment
  | StemQuestion
  | ExitIntent
  | Unknown
  deriving DecidableEq

/-- Modelled from the spec (section 4.3): evaluate the five keyword sets in
the fixed priority order Greeting, Reschedule, Appointment, StemQuestion,
Exit; the first set that matches decides, `Unknown` when none matches. -/
def classify (user_input : List Char)
    (greetingSet rescheduleSet appointmentSet stemSet exitSet : List (List Char)) : Intent :=
  if is_keyword_match user_input greetingSet then .Greeting
  else if is_keyword_match user_input rescheduleSet then .Reschedule
  else if is_keyword_match user_input appointmentSet then .Appointment
  else if is_keyword_match user_input stemSet then .StemQuestion
  else if is_keyword_match user_input exitSet then .ExitIntent
  else .Unknown

/-- Modelled from the spec (section 4.4): map an intent to its canned reply,
forwarding the original raw text to the Model Client on `StemQuestion` and
returning the fixed fallback text on `Unknown`. -/
def route (llama : List Char → List Char) (intent : Intent) (rawText : List Char) : List Char :=
  match intent with
  | .Greeting => greetingReply
  | .Reschedule => rescheduleReply
  | .Appointment => appointmentReply
  | .StemQuestion => llama rawText
  | .ExitIntent => farewellReply
  | .Unknown => fallbackReply

/-! ## Character-level lemmas -/

/-- Packing a scalar value below the surrogate range and unpacking it is the
identity. -/
theorem char_toNat_ofNat_lt {n : Nat} (h : n < 55296) : (Char.ofNat n).toNat = n := by
  unfold Char.ofNat
  rw [dif_pos (Or.inl h)]
  rfl

/-- `Char.toLower` fixes every character outside the ASCII uppercase range. -/
theorem toLower_eq_of_not_upper {c : Char} (h : ¬(65 ≤ c.toNat ∧ c.toNat ≤ 90)) :
    Char.toLower c = c := by
  show (if c.toNat ≥ 65 ∧ c.toNat ≤ 90 then Char.ofNat (c.toNat + 32) else c) = c
  rw [if_neg fun hc => h ⟨hc.1, hc.2⟩]

/-- `Char.toLower` shifts an ASCII uppercase letter down into `a`-`z`. -/
theorem toLower_toNat_of_upper {c : Char} (h1 : 65 ≤ c.toNat) (h2 : c.toNat ≤ 90) :
    (Char.toLower c).toNat = c.toNat + 32 := by
  unfold Char.toLower
  rw [if_pos ⟨h1, h2⟩]
  exact char_toNat_ofNat_lt (by omega)

/-- The output of `Char.toLower` is never an ASCII uppercase letter. -/
theorem toLower_not_upper (c : Char) :
    ¬(65 ≤ (Char.toLower c).toNat ∧ (Char.toLower c).toNat ≤ 90) := by
  by_cases h : 65 ≤ c.toNat ∧ c.toNat ≤ 90
  · rw [toLower_toNat_of_upper h.1 h.2]
    omega
  · rw [toLower_eq_of_not_upper h]
    exact h

/-- `Char.toLower` is idempotent. -/
theorem toLower_toLower (c : Char) : Char.toLower (Char.toLower c) = Char.toLower c :=
  toLower_eq_of_not_upper (toLower_not_upper c)

/-- The code point of every `string.punctuation` member lies in the four
ASCII punctuation bands. -/
theorem mem_punctuation_toNat {d : Char} (h : d ∈ punctuation) :
    (33 ≤ d.toNat ∧ d.toNat ≤ 47) ∨ (58 ≤ d.toNat ∧ d.toNat ≤ 64) ∨
    (91 ≤ d.toNat ∧ d.toNat ≤ 96) ∨ (123 ≤ d.toNat ∧ d.toNat ≤ 126) := by
  fin_cases h <;> decide

/-- Boolean membership in `punctuation` agrees with list membership. -/
theorem punct_contains_iff {d : Char} : punctuation.contains d = true ↔ d ∈ punctuation :=
  List.elem_iff

/-- Lowercasing does not move a character into or out of the punctuation
set. -/
theorem contains_toLower_punct (c : Char) :
    punctuation.contains (Char.toLower c) = punctuation.contains c := by
  by_cases h : 65 ≤ c.toNat ∧ c.toNat ≤ 90
  · have hl : punctuation.contains (Char.toLower c) = false := by
      cases hcl : punctuation.contains (Char.toLower c)
      · rfl
      · exfalso
        have := mem_punctuation_toNat (punct_contains_iff.mp hcl)
        rw [toLower_toNat_of_upper h.1 h.2] at this
        omega
    have hr : punctuation.contains c = false := by
      cases hcr : punctuation.contains c
      · rfl
      · exfalso
        have := mem_punctuation_toNat (punct_contains_iff.mp hcr)
        omega
    rw [hl, hr]
  · rw [toLower_eq_of_not_upper h]

/-- Boolean `pyIsSpace` unfolded to code-point membership. -/
theorem pyIsSpace_iff {c : Char} : pyIsSpace c = true ↔ c.toNat ∈ spaceCodes := by
  simp [pyIsSpace]

/-- No whitespace code point is an ASCII letter. -/
theorem spaceCodes_no_letter : ∀ n ∈ spaceCodes, ¬(65 ≤ n ∧ n ≤ 90) ∧ ¬(97 ≤ n ∧ n ≤ 122) := by
  decide

/-- Lowercasing preserves whitespace-ness of a character. -/
theorem pyIsSpace_toLower (c : Char) : pyIsSpace (Char.toLower c) = pyIsSpace c := by
  by_cases h : 65 ≤ c.toNat ∧ c.toNat ≤ 90
  · have hl : pyIsSpace (Char.toLower c) = false := by
      cases hcl : pyIsSpace (Char.toLower c)
      · rfl
      · exfalso
        have := (spaceCodes_no_letter _ (pyIsSpace_iff.mp hcl)).2
        rw [toLower_toNat_of_upper h.1 h.2] at this
        omega
    have hr : pyIsSpace c = false := by
      cases hcr : pyIsSpace c
      · rfl
      · exfalso
        have := (spaceCodes_no_letter _ (pyIsSpace_iff.mp hcr)).1
        omega
    rw [hl, hr]
  · rw [toLower_eq_of_not_upper h]

/-- A whitespace character is fixed by `Char.toLower`. -/
theorem toLower_eq_of_space {c : Char} (h : pyIsSpace c = true) : Char.toLower c = c := by
  apply toLower_eq_of_not_upper
  exact (spaceCodes_no_letter _ (pyIsSpace_iff.mp h)).1

/-- Whitespace characters are never punctuation characters. -/
theorem contains_eq_false_of_space {c : Char} (h : pyIsSpace c = true) :
    punctuation.contains c = false := by
  cases hcr : punctuation.contains c
  · rfl
  · exfalso
    have h1 := mem_punctuation_toNat (punct_contains_iff.mp hcr)
    have h2 := pyIsSpace_iff.mp h
    simp only [spaceCodes, List.mem_cons, List.not_mem_nil, or_false] at h2
    rcases h2 with h2 | h2 | h2 | h2 | h2 | h2 | h2 | h2 | h2 | h2 | h2 | h2 <;> omega

/-! ## Substring and normalization lemmas -/

/-- The suffix scan `containsSub` decides contiguous-substring containment. -/
theorem containsSub_iff {hay needle : List Char} :
    containsSub hay needle = true ↔ needle <:+: hay := by
  unfold containsSub
  rw [List.any_eq_true]
  constructor
  · rintro ⟨t, ht, hp⟩
    rw [List.isPrefixOf_iff_prefix] at hp
    exact List.infix_iff_prefix_suffix.mpr ⟨t, hp, (List.mem_tails _ _).mp ht⟩
  · intro h
    obtain ⟨t, hp, hs⟩ := List.infix_iff_prefix_suffix.mp h
    exact ⟨t, (List.mem_tails _ _).mpr hs, List.isPrefixOf_iff_prefix.mpr hp⟩

/-- `is_keyword_match` holds exactly when some keyword of the set is a
contiguous substring of the cleaned input. -/
theorem is_keyword_match_iff {s : List Char} {K : List (List Char)} :
    is_keyword_match s K = true ↔ ∃ k ∈ K, k <:+: clean_input s := by
  unfold is_keyword_match
  rw [List.any_eq_true]
  simp only [containsSub_iff]

/-- `clean_input` keeps the whitespace characters of its input untouched, in
order and multiplicity. -/
theorem clean_input_preserves_space (s : List Char) :
    (clean_input s).filter pyIsSpace = s.filter pyIsSpace := by
  unfold clean_input
  rw [List.filter_map]
  have h1 : (pyIsSpace ∘ Char.toLower) = pyIsSpace := funext fun c => pyIsSpace_toLower c
  rw [h1, List.filter_filter]
  have h2 : (s.filter fun a => pyIsSpace a && !punctuation.contains a) = s.filter pyIsSpace := by
    apply List.filter_congr
    intro a _
    cases ha : pyIsSpace a
    · rfl
    · rw [contains_eq_false_of_space ha]
      rfl
  rw [h2]
  have h3 : List.map Char.toLower (List.filter pyIsSpace s)
      = List.map id (List.filter pyIsSpace s) :=
    List.map_congr_left fun a ha => toLower_eq_of_space (List.mem_filter.mp ha).2
  rw [h3, List.map_id]

/-- C2: for every keyword set `K` and string `s`, the keyword match
predicate holds iff the normalization of `s` — punctuation removed, then
lowercased — contains some member of `K` as a contiguous substring; and the
normalization preserves whitespace as-is (the whitespace subsequence of the
normalized string is exactly that of the input). -/
theorem keyword_match_substring_spec (K : List (List Char)) (s : List Char) :
    (is_keyword_match s K = true ↔ ∃ k ∈ K, k <:+: clean_input s)
    ∧ (clean_input s).filter pyIsSpace = s.filter pyIsSpace :=
  ⟨is_keyword_match_iff, clean_input_preserves_space s⟩

/-- C10: the input normalizer `clean_input` is idempotent. -/
theorem clean_input_idempotent (s : List Char) :
    clean_input (clean_input s) = clean_input s := by
  unfold clean_input
  rw [List.filter_map]
  have h1 : ((fun c => !punctuation.contains c) ∘ Char.toLower)
      = fun c => !punctuation.contains c :=
    funext fun c => congrArg (fun b => !b) (contains_toLower_punct c)
  rw [h1, List.filter_filter]
  simp only [Bool.and_self]
  rw [List.map_map]
  exact List.map_congr_left fun a _ => toLower_toLower a

/-- Folding list append from an arbitrary accumulator concatenates. -/
theorem foldl_append_flatten (pages : List (List Char)) :
    ∀ acc, pages.foldl (fun text page => text ++ page) acc = acc ++ pages.flatten := by
  induction pages with
  | nil => intro acc; simp
  | cons p t ih =>
    intro acc
    rw [List.foldl_cons, ih, List.flatten_cons, List.append_assoc]

/-- C7: `extract_pdf_text` returns the concatenation of the pages' extracted
texts in page order with no separator; in particular a two-page document
with pages `"A"` and `"B"` yields exactly `"AB"`. -/
theorem extract_pdf_text_joins_pages :
    (∀ pages, extract_pdf_text pages = pages.flatten)
    ∧ extract_pdf_text [['A'], ['B']] = ['A', 'B'] := by
  constructor
  · intro pages
    unfold extract_pdf_text
    rw [foldl_append_flatten, List.nil_append]
  · rfl

/-! ## Routing claims -/

/-- C1: the chatbot's reply refines the spec's classify-then-route pipeline:
it equals routing the intent computed by the first-match priority classifier
(Greeting, Reschedule, Appointment, StemQuestion, Exit); the classifier
yields `Unknown` exactly when none of the five sets matches; and routing
`Unknown` yields the fixed fallback text. -/
theorem stem_chatbot_first_match_priority (llama : List Char → List Char)
    (g r a st e : List (List Char)) (input : List Char) :
    stem_chatbot llama input st g e a r = route llama (classify input g r a st e) input
    ∧ (classify input g r a st e = Intent.Unknown ↔
        (is_keyword_match input g = false ∧ is_keyword_match input r = false ∧
         is_keyword_match input a = false ∧ is_keyword_match input st = false ∧
         is_keyword_match input e = false))
    ∧ route llama Intent.Unknown input = fallbackReply := by
  unfold stem_chatbot classify route is_greeting_query is_reschedule_query
    is_appointment_query is_stem_query is_exit_query
  cases hg : is_keyword_match input g <;>
    cases hr : is_keyword_match input r <;>
      cases ha : is_keyword_match input a <;>
        cases hst : is_keyword_match input st <;>
          cases he : is_keyword_match input e <;>
            simp_all

/-- C6: an input the classifier maps to `StemQuestion` makes the chatbot
forward the original, non-normalized input to the Model Client oracle and
return its result verbatim. -/
theorem stem_question_forwards_raw_input (llama : List Char → List Char)
    (g r a st e : List (List Char)) (input : List Char)
    (h : classify input g r a st e = Intent.StemQuestion) :
    stem_chatbot llama input st g e a r = llama input := by
  unfold classify at h
  unfold stem_chatbot is_greeting_query is_reschedule_query
    is_appointment_query is_stem_query is_exit_query
  cases hg : is_keyword_match input g <;>
    cases hr : is_keyword_match input r <;>
      cases ha : is_keyword_match input a <;>
        cases hst : is_keyword_match input st <;>
          cases he : is_keyword_match input e <;>
            simp_all

/-- Witness for C6 at a concrete stem-matching input. -/
theorem stem_question_forwards_raw_input_witness :
    stem_chatbot (fun _ => "An answer".data) "I have a question about biology".data
      ["biology".data] [] [] [] [] = "An answer".data :=
  stem_question_forwards_raw_input (fun _ => "An answer".data) [] [] [] ["biology".data] []
    "I have a question about biology".data (by rfl)

/-! ## Model Client claims -/

/-- C3 counterexample: a 200 response whose JSON body is a top-level array
makes `call_llama_api` propagate an `AttributeError` (the `.get` on line 26
has no dict receiver and its exception is not a `RequestException`), so the
Model Client does not never-throw. -/
theorem call_llama_api_fault_counterexample :
    call_llama_api (fun _ => .response 200 [] (some (Json.arr []))) "hi".data
      = Except.error PyFault.attributeError := rfl

/-- C3 (amended): on any network-level failure, and on any HTTP error status
400-599 (the statuses `raise_for_status` raises for), `call_llama_api`
returns `"API error: "` followed by the rendered exception in the same
return type as the success path, propagating no fault from those paths;
faults can still escape from the success-path body extraction. -/
theorem call_llama_api_absorbs_transport_failures (world : List Char → HttpResult)
    (prompt desc reason : List Char) (status : Nat) (body : Option Json) :
    (world prompt = HttpResult.connFailure desc →
      call_llama_api world prompt = .ok (.str (apiErrorTag ++ desc)))
    ∧ (world prompt = HttpResult.response status reason body →
       400 ≤ status → status ≤ 599 →
      call_llama_api world prompt = .ok (.str (apiErrorTag ++ reason))) := by
  constructor
  · intro h
    simp only [call_llama_api, h]
  · intro h h4 h5
    simp only [call_llama_api, h]
    rw [if_pos ⟨h4, h5⟩]

/-- Witness for C3 (amended) at a concrete connection failure and a concrete
503 status. -/
theorem call_llama_api_absorbs_transport_failures_witness :
    call_llama_api (fun _ => .connFailure "connection refused".data) "q".data
      = .ok (.str (apiErrorTag ++ "connection refused".data))
    ∧ call_llama_api (fun _ => .response 503 "503 Server Error".data none) "q".data
      = .ok (.str (apiErrorTag ++ "503 Server Error".data)) :=
  ⟨(call_llama_api_absorbs_transport_failures _ "q".data "connection refused".data [] 0
      none).1 rfl,
   (call_llama_api_absorbs_transport_failures _ "q".data [] "503 Server Error".data 503
      none).2 rfl (by decide) (by decide)⟩

/-- C4 counterexample: a 200 response whose body is `{"choices": []}` makes
`call_llama_api` propagate an `IndexError` — the empty choices array is not
degraded to the placeholder. -/
theorem empty_choices_fault_counterexample :
    call_llama_api
      (fun _ => .response 200 [] (some (Json.obj [(choicesField, Json.arr [])])))
      "hi".data = Except.error PyFault.indexError := rfl

/-- C4 (amended): for a 2xx (non-error-status) JSON-object body, the reply
extraction degrades to the fixed placeholder when the `choices` key is
missing, when the first choice is an object without `message`, or when the
message is an object without `content`; it is not total for the other shape
defects (an empty `choices` array raises). -/
theorem extract_reply_missing_fields_placeholder (world : List Char → HttpResult)
    (prompt reason : List Char) (status : Nat)
    (fields efields mfields : List (List Char × Json)) (rest : List Json)
    (hw : world prompt = HttpResult.response status reason (some (Json.obj fields)))
    (hst : ¬(400 ≤ status ∧ status ≤ 599)) :
    (fields.lookup choicesField = none →
      call_llama_api world prompt = .ok (.str noResponseReply))
    ∧ (fields.lookup choicesField = some (Json.arr (Json.obj efields :: rest)) →
       efields.lookup messageField = none →
      call_llama_api world prompt = .ok (.str noResponseReply))
    ∧ (fields.lookup choicesField = some (Json.arr (Json.obj efields :: rest)) →
       efields.lookup messageField = some (Json.obj mfields) →
       mfields.lookup contentField = none →
      call_llama_api world prompt = .ok (.str noResponseReply)) := by
  simp only [call_llama_api, hw]
  rw [if_neg hst]
  refine ⟨?_, ?_, ?_⟩
  · intro h1
    simp [extract_reply, Json.dictGet, Json.index0, h1]
  · intro h1 h2
    simp [extract_reply, Json.dictGet, Json.index0, h1, h2]
  · intro h1 h2 h3
    simp [extract_reply, Json.dictGet, Json.index0, h1, h2, h3]

/-- Witness for C4 (amended): the three graceful shapes at concrete bodies. -/
theorem extract_reply_missing_fields_placeholder_witness :
    call_llama_api (fun _ => .response 200 [] (some (Json.obj []))) "q".data
      = .ok (.str noResponseReply)
    ∧ call_llama_api
        (fun _ => .response 200 [] (some (Json.obj [(choicesField, Json.arr [Json.obj []])])))
        "q".data = .ok (.str noResponseReply)
    ∧ call_llama_api
        (fun _ => .response 200 []
          (some (Json.obj [(choicesField, Json.arr [Json.obj [(messageField, Json.obj [])]])])))
        "q".data = .ok (.str noResponseReply) :=
  ⟨(extract_reply_missing_fields_placeholder _ "q".data [] 200 [] [] [] [] rfl
      (by decide)).1 rfl,
   (extract_reply_missing_fields_placeholder _ "q".data [] 200
      [(choicesField, Json.arr [Json.obj []])] [] [] [] rfl (by decide)).2.1 rfl rfl,
   (extract_reply_missing_fields_placeholder _ "q".data [] 200
      [(choicesField, Json.arr [Json.obj [(messageField, Json.obj [])]])]
      [(messageField, Json.obj [])] [] [] rfl (by decide)).2.2 rfl rfl rfl⟩

/-! ## Loader claims -/

/-- C5 counterexample: a keyword source that exists but cannot be read (an
`OSError` other than `FileNotFoundError`, such as `PermissionError`) makes
`load_keywords` propagate the fault instead of degrading to an empty set. -/
theorem load_keywords_read_fault_counterexample :
    load_keywords "stem_keywords.txt".data
      (FileAccess.readFault (PyFault.osError "Permission denied".data))
      = Except.error (PyFault.osError "Permission denied".data) := rfl

/-- C5 (amended): for every source that cannot be located (file not found),
`load_keywords` raises nothing, surfaces one non-fatal error message and
returns the empty keyword set; only this failure is absorbed. -/
theorem load_keywords_missing_file_nonfatal (filename : List Char) :
    load_keywords filename FileAccess.notFound
      = Except.ok ([keywordFileError filename], []) := rfl

/-! ## Upload claims -/

/-- C8: an uploaded document whose declared media type is neither
`"application/pdf"` nor `"text/plain"` yields the fixed unsupported-type
reply with zero Model Client invocations. -/
theorem unsupported_media_type_short_circuits (llama : List Char → List Char)
    (f : UploadedFile) (h1 : f.ftype ≠ mediaTypePdf) (h2 : f.ftype ≠ mediaTypeTxt) :
    handle_file_upload llama f = (unsupportedReply, 0) := by
  unfold handle_file_upload
  rw [if_neg h1, if_neg h2]

/-- Witness for C8 at the media type `"image/png"`. -/
theorem unsupported_media_type_short_circuits_witness :
    handle_file_upload (fun _ => []) ⟨"image/png".data, [], []⟩ = (unsupportedReply, 0) :=
  unsupported_media_type_short_circuits _ _ (by decide) (by decide)

/-! ## Loader invariants -/

/-- The first element surviving `dropWhile p` does not satisfy `p`. -/
theorem head?_all_dropWhile (p : Char → Bool) (l : List Char) :
    ((l.dropWhile p).head?.all fun c => !p c) = true := by
  induction l with
  | nil => rfl
  | cons a t ih =>
    rw [List.dropWhile_cons]
    split
    · exact ih
    · rename_i h
      rw [Bool.not_eq_true] at h
      simp [h]

/-- The last element of a stripped string is not whitespace. -/
theorem pyStrip_getLast_not_space (s : List Char) :
    ((pyStrip s).getLast?.all fun c => !pyIsSpace c) = true := by
  unfold pyStrip
  rw [List.getLast?_reverse]
  exact head?_all_dropWhile pyIsSpace _

/-- Stripping refines dropping the leading whitespace: the result is a
prefix of it. -/
theorem pyStrip_prefix_dropWhile (s : List Char) : pyStrip s <+: s.dropWhile pyIsSpace := by
  unfold pyStrip
  have h : (s.dropWhile pyIsSpace).reverse.dropWhile pyIsSpace
      <:+ (s.dropWhile pyIsSpace).reverse := List.dropWhile_suffix pyIsSpace
  have h2 := List.reverse_prefix.mpr h
  rwa [List.reverse_reverse] at h2

/-- A non-empty prefix has the same first element as the whole list. -/
theorem prefix_head_eq {l₁ l₂ : List Char} (h : l₁ <+: l₂) (hne : l₁ ≠ []) :
    l₂.head? = l₁.head? := by
  obtain ⟨t, rfl⟩ := h
  cases l₁ with
  | nil => exact absurd rfl hne
  | cons a t' => rfl

/-- The first element of a stripped string is not whitespace. -/
theorem pyStrip_head_not_space (s : List Char) :
    ((pyStrip s).head?.all fun c => !pyIsSpace c) = true := by
  by_cases hne : pyStrip s = []
  · rw [hne]
    rfl
  · rw [← prefix_head_eq (pyStrip_prefix_dropWhile s) hne]
    exact head?_all_dropWhile pyIsSpace s

/-- Membership in the loader's accumulation loop, for any accumulator. -/
theorem mem_foldl_parse (lines : List (List Char)) (k : List Char) :
    ∀ acc, (k ∈ lines.foldl (fun acc line => acc ++ parseLine line) acc ↔
      k ∈ acc ∨ ∃ line ∈ lines, k ∈ parseLine line) := by
  induction lines with
  | nil =>
    intro acc
    simp
  | cons l t ih =>
    intro acc
    rw [List.foldl_cons, ih]
    simp only [List.mem_append, List.mem_cons, or_assoc]
    constructor
    · rintro (h | h | ⟨line, hl, h⟩)
      · exact Or.inl h
      · exact Or.inr ⟨l, Or.inl rfl, h⟩
      · exact Or.inr ⟨line, Or.inr hl, h⟩
    · rintro (h | ⟨line, hl | hl, h⟩)
      · exact Or.inl h
      · exact Or.inr (Or.inl (hl ▸ h))
      · exact Or.inr (Or.inr ⟨line, hl, h⟩)

/-- Every keyword produced from one source line is a stripped, non-empty
token mapped to lowercase. -/
theorem mem_parseLine {line k : List Char} (h : k ∈ parseLine line) :
    ∃ tok, pyStrip tok ≠ [] ∧ k = (pyStrip tok).map Char.toLower := by
  unfold parseLine at h
  rw [List.mem_filterMap] at h
  obtain ⟨tok, _, hf⟩ := h
  by_cases hs : pyStrip tok = []
  · rw [if_pos hs] at hf
    exact absurd hf (by simp)
  · rw [if_neg hs] at hf
    injection hf with hf
    exact ⟨tok, hs, hf.symm⟩

/-- Lowercasing a string whose first element is not whitespace keeps its
first element non-whitespace. -/
theorem head_all_map_toLower {s : List Char}
    (h : (s.head?.all fun c => !pyIsSpace c) = true) :
    ((s.map Char.toLower).head?.all fun c => !pyIsSpace c) = true := by
  rw [List.head?_map]
  cases s with
  | nil => rfl
  | cons a t =>
    show (!pyIsSpace (Char.toLower a)) = true
    rw [pyIsSpace_toLower]
    exact h

/-- Lowercasing a string whose last element is not whitespace keeps its last
element non-whitespace. -/
theorem getLast_all_map_toLower {s : List Char}
    (h : (s.getLast?.all fun c => !pyIsSpace c) = true) :
    ((s.map Char.toLower).getLast?.all fun c => !pyIsSpace c) = true := by
  rw [List.getLast?_map]
  cases hs : s.getLast? with
  | none => rfl
  | some a =>
    rw [hs] at h
    show (!pyIsSpace (Char.toLower a)) = true
    rw [pyIsSpace_toLower]
    exact h

/-- C9: every member of a successfully loaded keyword set is non-empty,
carries no leading or trailing whitespace, and contains no ASCII uppercase
letter — in particular the empty string is never a loaded keyword. -/
theorem loaded_keywords_normalized (filename : List Char) (fs : FileAccess)
    (logs kws : List (List Char))
    (hload : load_keywords filename fs = Except.ok (logs, kws))
    (k : List Char) (hk : k ∈ kws) :
    k ≠ []
    ∧ (k.head?.all fun c => !pyIsSpace c) = true
    ∧ (k.getLast?.all fun c => !pyIsSpace c) = true
    ∧ ∀ c ∈ k, ¬(65 ≤ c.toNat ∧ c.toNat ≤ 90) := by
  cases fs with
  | notFound =>
    simp only [load_keywords, Except.ok.injEq, Prod.mk.injEq] at hload
    rw [← hload.2] at hk
    exact absurd hk (List.not_mem_nil k)
  | readFault f =>
    simp only [load_keywords] at hload
    exact absurd hload (by simp)
  | content lines =>
    simp only [load_keywords, Except.ok.injEq, Prod.mk.injEq] at hload
    rw [← hload.2] at hk
    rw [mem_foldl_parse] at hk
    rcases hk with hk | ⟨line, _, hk⟩
    · exact absurd hk (List.not_mem_nil k)
    · obtain ⟨tok, hne, rfl⟩ := mem_parseLine hk
      refine ⟨?_, ?_, ?_, ?_⟩
      · rw [Ne, List.map_eq_nil_iff]
        exact hne
      · exact head_all_map_toLower (pyStrip_head_not_space tok)
      · exact getLast_all_map_toLower (pyStrip_getLast_not_space tok)
      · intro c hc
        rw [List.mem_map] at hc
        obtain ⟨x, _, rfl⟩ := hc
        exact toLower_not_upper x

/-- Witness for C9 on a concrete two-keyword source line. -/
theorem loaded_keywords_normalized_witness :
    "hello".data ≠ []
    ∧ (("hello".data).head?.all fun c => !pyIsSpace c) = true
    ∧ (("hello".data).getLast?.all fun c => !pyIsSpace c) = true
    ∧ ∀ c ∈ "hello".data, ¬(65 ≤ c.toNat ∧ c.toNat ≤ 90) :=
  loaded_keywords_normalized "f".data (FileAccess.content ["hello, HI ".data]) []
    ["hello".data, "hi".data] rfl "hello".data (by decide)

end UnicBot
